import Mathlib

/-!
Shallow embedding of the weather dashboard script (`src/weather.py`).

The script has two pieces of decision logic:

* `get_weather_data` (lines 30-48): an HTTP fetch memoized with
  `@st.cache_data`.  On a request exception it shows an error message
  and returns `None`; the decorator caches whatever value the function
  returns, keyed by the `(latitude, longitude)` arguments.

* the inline shaping code (lines 135-165): guards on the `"hourly"`
  field, coerces temperatures with `pd.to_numeric(errors='coerce')`
  (bad entries become NaN), resolves the reported timezone via
  `pytz.timezone` with a UTC fallback plus a warning, localizes the
  timestamps, labels each row `"Forecast"` if its localized time is
  strictly after `datetime.now(tz)` and `"Historical"` otherwise, and
  derives current / max / min temperature metrics.

Modelling choices: timestamps are integers (minutes); a timezone is its
fixed offset, so localizing a naive wall-clock time `t` in timezone `tz`
yields the absolute instant `t - tz.offset`, and `datetime.now(tz)`
denotes one absolute instant `nowAbs` independent of `tz`.  A NaN float
is `Option.none`; pandas `.max()` / `.min()` skip NaN and return NaN on
an all-NaN column, here `listMax` / `listMin` over the valid entries.
Python string formatting renders a NaN float as `"nan"`.  An uncaught
Python exception is the `crash` outcome — the `ValueError` that
`pd.DataFrame` raises on parallel arrays of unequal length (line 137)
as well as the `IndexError` from `df.iloc[0]` on an empty frame (line
152); the guarded `st.warning` branch for a missing `"hourly"` field is
the `shapeError` outcome.
-/

set_option autoImplicit false

namespace Weather

/-- One raw entry of the `temperature_2m` array: a numeric value, a JSON
null, or a string that does not parse as a number. -/
inductive TempEntry where
  | valid (t : ℚ)
  | missing
  | unparseable
  deriving DecidableEq, Repr

/-- `pd.to_numeric(df["temperature_2m"], errors='coerce')`: numeric
entries pass through, missing or unparseable entries become NaN
(modelled as `none`). -/
def to_numeric_coerce : TempEntry → Option ℚ
  | .valid t => some t
  | .missing => none
  | .unparseable => none

/-- The `hourly` object of the provider response: parallel arrays
`time` (parsed naive timestamps) and `temperature_2m`. -/
structure HourlyData where
  time : List ℤ
  temperature_2m : List TempEntry
  deriving DecidableEq, Repr

/-- The parsed JSON response: `weather_data.get("timezone", "UTC")`
reads an optional `timezone` string, and line 135 guards on the
presence of the `hourly` field. -/
structure WeatherData where
  timezone : Option String
  hourly : Option HourlyData
  deriving DecidableEq, Repr

/-- A resolved timezone, reduced to its fixed offset (minutes of wall
clock ahead of absolute time). -/
structure Tz where
  offset : ℤ
  deriving DecidableEq, Repr

/-- `pytz.timezone('UTC')`: the universal timezone, offset zero. -/
def UTC : Tz := ⟨0⟩

/-- `tz_localize`: interpret a naive wall-clock timestamp in `tz`,
giving the absolute instant it denotes. -/
def localize (tz : Tz) (naive : ℤ) : ℤ := naive - tz.offset

/-- The value of the `Type` column added on line 150. -/
inductive Label where
  | Historical
  | Forecast
  deriving DecidableEq, Repr

/-- One row of the shaped dataframe: localized absolute timestamp,
coerced temperature, and the `Type` label. -/
structure Sample where
  time : ℤ
  temperature_2m : Option ℚ
  label : Label
  deriving DecidableEq, Repr

/-- The shaped series: the labeled rows, whether the timezone fallback
warning was shown, and the boundary instant (`datetime.now(tz)`)
against which every row was compared. -/
structure Shaped where
  samples : List Sample
  tzWarning : Bool
  boundary : ℤ
  deriving DecidableEq, Repr

/-- The three headline metrics of lines 152-155. -/
structure SummaryMetrics where
  current_temp : Option ℚ
  max_temp : Option ℚ
  min_temp : Option ℚ
  deriving DecidableEq, Repr

/-- Build the shaped rows from the parallel `time` and coerced
temperature columns: localize each timestamp and label it `Forecast`
exactly when it is strictly after the boundary (line 150:
`"Forecast" if x > current_time else "Historical"`). -/
def mkSamples (tz : Tz) (boundary : ℤ) : List ℤ → List (Option ℚ) → List Sample
  | [], _ => []
  | _ :: _, [] => []
  | t :: ts, v :: vs =>
      { time := localize tz t
        temperature_2m := v
        label := if boundary < localize tz t then .Forecast else .Historical } ::
        mkSamples tz boundary ts vs

/-- Is the row labeled `Historical` (the boolean mask
`df["Type"] == "Historical"`)? -/
def isHistorical (s : Sample) : Bool :=
  match s.label with
  | .Historical => true
  | .Forecast => false

/-- Pandas `.max()` with default `skipna=True` over the valid entries:
`none` on an empty list (the all-NaN column). -/
def listMax : List ℚ → Option ℚ
  | [] => none
  | x :: xs =>
    match listMax xs with
    | none => some x
    | some m => some (max x m)

/-- Pandas `.min()` with default `skipna=True` over the valid entries. -/
def listMin : List ℚ → Option ℚ
  | [] => none
  | x :: xs =>
    match listMin xs with
    | none => some x
    | some m => some (min x m)

/-- The numeric (non-NaN) temperatures of the shaped rows. -/
def validTemps (df : List Sample) : List ℚ :=
  df.filterMap Sample.temperature_2m

/-- Line 152: the last `Historical` row if any exists, else the first
row of the frame; `none` models the `IndexError` that `df.iloc[0]`
raises on an empty frame. -/
def current_temp_row (df : List Sample) : Option Sample :=
  let hist := df.filter isHistorical
  if hist.isEmpty then df.head? else hist.getLast?

/-- Lines 152-155: the three metrics derived from the shaped frame and
the selected current row. -/
def metricsOf (df : List Sample) (row : Sample) : SummaryMetrics :=
  { current_temp := row.temperature_2m
    max_temp := listMax (validTemps df)
    min_temp := listMin (validTemps df) }

/-- Outcome of the shaping block (lines 135-165): `ok` when metrics are
produced, `shapeError` for the guarded "Weather data is not available"
branch, `crash` for an uncaught exception. -/
inductive ShapeResult where
  | ok (series : Shaped) (metrics : SummaryMetrics)
  | shapeError
  | crash
  deriving DecidableEq, Repr

/-- Lines 138-150: the dataframe built from the `hourly` object, with
temperatures coerced, timestamps localized in the resolved timezone
(`UTC` when `pytz.timezone` fails on the reported identifier), and the
`Type` label added. -/
def shaped_samples (tzdb : String → Option Tz) (nowAbs : ℤ) (weather_data : WeatherData)
    (hourly_data : HourlyData) : List Sample :=
  mkSamples ((tzdb (weather_data.timezone.getD "UTC")).getD UTC) nowAbs
    hourly_data.time (hourly_data.temperature_2m.map to_numeric_coerce)

/-- The shaping pipeline of lines 135-155, parameterized by the pytz
database (`tzdb`, a map from identifier strings to timezones, undefined
on unresolvable identifiers) and the absolute instant `nowAbs` denoted
by `datetime.now`.  `pd.DataFrame(hourly_data)` on line 137 requires
the parallel arrays to have equal length and raises an uncaught
`ValueError` otherwise, so a length mismatch is a `crash` before any
column is processed. -/
def shape (tzdb : String → Option Tz) (nowAbs : ℤ) (weather_data : WeatherData) :
    ShapeResult :=
  match weather_data.hourly with
  | none => .shapeError
  | some hourly_data =>
    if hourly_data.time.length = hourly_data.temperature_2m.length then
      match current_temp_row (shaped_samples tzdb nowAbs weather_data hourly_data) with
      | none => .crash
      | some row =>
          .ok ⟨shaped_samples tzdb nowAbs weather_data hourly_data,
               (tzdb (weather_data.timezone.getD "UTC")).isNone, nowAbs⟩
            (metricsOf (shaped_samples tzdb nowAbs weather_data hourly_data) row)
    else .crash

/-- `st.metric` value string of lines 159-163: Python formats a NaN
float as `"nan"`. -/
def render_metric : Option ℚ → String
  | none => "nan°F"
  | some t => toString t ++ "°F"

/-- A tiny concrete pytz database used for witnesses: it resolves
`"UTC"` and `"America/Chicago"` (360 minutes behind UTC) and nothing
else. -/
def tzdb0 : String → Option Tz :=
  fun s =>
    if s = "UTC" then some UTC
    else if s = "America/Chicago" then some ⟨360⟩ else none

/-- A pytz database that resolves nothing, for exercising the fallback
path. -/
def tzdbNone : String → Option Tz := fun _ => none

/-- Concrete hourly payload: Chicago samples at local 09:00, 10:00 and
11:00 (minutes 540, 600, 660) with temperatures 42, 45 and 48. -/
def h0 : HourlyData := ⟨[540, 600, 660], [.valid 42, .valid 45, .valid 48]⟩

/-- Concrete response carrying `h0` with the Chicago timezone. -/
def w0 : WeatherData :=
  { timezone := some "America/Chicago"
    hourly := some h0 }

/-- The boundary used with `w0`: absolute minute 270, i.e. Chicago
wall-clock 10:30. -/
def now0 : ℤ := 270

/-- Shaped series expected for `w0` at `now0`. -/
def s0 : Shaped :=
  { samples :=
      [⟨180, some 42, .Historical⟩, ⟨240, some 45, .Historical⟩, ⟨300, some 48, .Forecast⟩]
    tzWarning := false
    boundary := 270 }

/-- Metrics expected for `w0` at `now0`. -/
def m0 : SummaryMetrics := ⟨some 45, some 48, some 42⟩

/-- Concrete response whose temperature entries are all bad: a JSON
null and an unparseable string. -/
def wNaN : WeatherData :=
  { timezone := some "UTC", hourly := some ⟨[0, 60], [.missing, .unparseable]⟩ }

/-- Shaped series expected for `wNaN` at boundary 30. -/
def sNaN : Shaped :=
  { samples := [⟨0, none, .Historical⟩, ⟨60, none, .Forecast⟩]
    tzWarning := false
    boundary := 30 }

/-- Metrics expected for `wNaN` at boundary 30: every metric is NaN. -/
def mNaN : SummaryMetrics := ⟨none, none, none⟩

/-- Concrete response whose single Historical sample has a NaN
temperature while the Forecast sample is 50. -/
def w7 : WeatherData :=
  { timezone := some "UTC", hourly := some ⟨[0, 60], [.missing, .valid 50]⟩ }

/-- Shaped series expected for `w7` at boundary 30. -/
def s7 : Shaped :=
  { samples := [⟨0, none, .Historical⟩, ⟨60, some 50, .Forecast⟩]
    tzWarning := false
    boundary := 30 }

/-- Metrics expected for `w7` at boundary 30: current is NaN, max and
min are 50. -/
def m7 : SummaryMetrics := ⟨none, some 50, some 50⟩

/-- Structurally well-formed response whose hourly arrays are empty. -/
def wEmpty : WeatherData := { timezone := some "UTC", hourly := some ⟨[], []⟩ }

/-- Malformed response: the required `hourly` field is missing. -/
def wNoHourly : WeatherData := { timezone := some "UTC", hourly := none }

/-- Outcome of one network attempt inside `get_weather_data`: a parsed
JSON body on success, or a `requests` exception (connection failure,
timeout, or `raise_for_status` on a non-success status). -/
inductive NetResult where
  | success (data : WeatherData)
  | failure (cause : String)
  deriving DecidableEq, Repr

/-- The `@st.cache_data` memoization state plus a count of outbound
network calls performed so far. -/
structure FetchState where
  cache : List ((ℚ × ℚ) × Option WeatherData)
  network_calls : ℕ
  deriving DecidableEq, Repr

/-- Look up a coordinate pair in the memoization cache. -/
def cache_lookup : List ((ℚ × ℚ) × Option WeatherData) → ℚ × ℚ → Option (Option WeatherData)
  | [], _ => none
  | (k, v) :: rest, c => if k = c then some v else cache_lookup rest c

/-- Result of one call to the decorated `get_weather_data`: the value
returned to the caller, the updated cache state, and the `st.error`
message if one was shown. -/
structure FetchOutcome where
  result : Option WeatherData
  state : FetchState
  error_message : Option String
  deriving DecidableEq, Repr

/-- Lines 30-48 under `@st.cache_data`: on a cache hit the memoized
value is returned with no network call; on a miss the network is
called, a success returns the parsed body, a `RequestException` shows
`st.error` and returns `None` — and the decorator caches the returned
value either way, `None` included. -/
def get_weather_data (network : ℚ × ℚ → NetResult) (latitude longitude : ℚ)
    (st : FetchState) : FetchOutcome :=
  match cache_lookup st.cache (latitude, longitude) with
  | some cached => ⟨cached, st, none⟩
  | none =>
    match network (latitude, longitude) with
    | .success data =>
        ⟨some data,
         ⟨st.cache ++ [((latitude, longitude), some data)], st.network_calls + 1⟩,
         none⟩
    | .failure cause =>
        ⟨none,
         ⟨st.cache ++ [((latitude, longitude), none)], st.network_calls + 1⟩,
         some ("Error fetching data: " ++ cause)⟩

/-- A network on which every request times out. -/
def failNet : ℚ × ℚ → NetResult := fun _ => .failure "timeout"

/-- A network that always answers with the `w0` payload. -/
def okNet : ℚ × ℚ → NetResult := fun _ => .success w0

/-- The fetch state at process start: empty cache, no calls made. -/
def st_empty : FetchState := ⟨[], 0⟩

/-- Test latitude (New York, rounded so the literal evaluates). -/
def nyLat : ℚ := 40

/-- Test longitude (New York, rounded so the literal evaluates). -/
def nyLon : ℚ := -74

/-- The if-expression of line 150, characterized both ways. -/
theorem label_ite (b a : ℤ) :
    ((if b < a then Label.Forecast else Label.Historical) = Label.Historical ↔ a ≤ b) ∧
    ((if b < a then Label.Forecast else Label.Historical) = Label.Forecast ↔ b < a) := by
  by_cases hb : b < a
  · simp [hb]
  · simp [hb]
    omega

/-- Every row built by `mkSamples` is labeled `Historical` exactly when
its localized time is at or before the boundary, and `Forecast` exactly
when it is strictly after. -/
theorem mkSamples_label {tz : Tz} {b : ℤ} :
    ∀ {ts : List ℤ} {vs : List (Option ℚ)} {s : Sample},
      s ∈ mkSamples tz b ts vs →
      (s.label = Label.Historical ↔ s.time ≤ b) ∧ (s.label = Label.Forecast ↔ b < s.time)
  | [], _, _, hs => by simp [mkSamples] at hs
  | _ :: _, [], _, hs => by simp [mkSamples] at hs
  | t :: ts, v :: vs, s, hs => by
    rw [mkSamples] at hs
    rcases List.mem_cons.mp hs with h | h
    · subst h
      exact label_ite b (localize tz t)
    · exact mkSamples_label h

/-- Every row built by `mkSamples` carries the localized version of
some input timestamp. -/
theorem mkSamples_time {tz : Tz} {b : ℤ} :
    ∀ {ts : List ℤ} {vs : List (Option ℚ)} {s : Sample},
      s ∈ mkSamples tz b ts vs → ∃ t ∈ ts, s.time = localize tz t
  | [], _, _, hs => by simp [mkSamples] at hs
  | _ :: _, [], _, hs => by simp [mkSamples] at hs
  | t :: ts, v :: vs, s, hs => by
    rw [mkSamples] at hs
    rcases List.mem_cons.mp hs with h | h
    · exact ⟨t, List.mem_cons_self t ts, by rw [h]⟩
    · obtain ⟨u, hu, hsu⟩ := mkSamples_time h
      exact ⟨u, List.mem_cons_of_mem _ hu, hsu⟩

/-- Localization preserves the input ordering: sorted input timestamps
give rows with nondecreasing localized times. -/
theorem mkSamples_pairwise_time {tz : Tz} {b : ℤ} :
    ∀ {ts : List ℤ} {vs : List (Option ℚ)}, ts.Pairwise (· ≤ ·) →
      (mkSamples tz b ts vs).Pairwise (fun a c => a.time ≤ c.time)
  | [], _, _ => by simp [mkSamples]
  | _ :: _, [], _ => by simp [mkSamples]
  | t :: ts, v :: vs, hp => by
    rw [mkSamples]
    rw [List.pairwise_cons] at hp ⊢
    obtain ⟨ht, hp⟩ := hp
    refine ⟨?_, mkSamples_pairwise_time hp⟩
    intro s' hs'
    obtain ⟨u, hu, hsu⟩ := mkSamples_time hs'
    have htu := ht u hu
    simp only [hsu, localize]
    omega

/-- `mkSamples` on an empty time column is empty. -/
theorem mkSamples_nil_left {tz : Tz} {b : ℤ} {vs : List (Option ℚ)} :
    mkSamples tz b [] vs = [] := rfl

/-- `mkSamples` on an empty temperature column is empty. -/
theorem mkSamples_nil_right {tz : Tz} {b : ℤ} {ts : List ℤ} :
    mkSamples tz b ts [] = [] := by
  cases ts <;> rfl

/-- `listMax` of a nonempty list is some member bounding the list from
above. -/
theorem listMax_spec : ∀ {l : List ℚ}, l ≠ [] →
    ∃ m, listMax l = some m ∧ m ∈ l ∧ ∀ x ∈ l, x ≤ m
  | [], h => absurd rfl h
  | [x], _ => ⟨x, rfl, by simp, by simp⟩
  | x :: y :: l, _ => by
    obtain ⟨m, hm, hmem, hb⟩ := listMax_spec (l := y :: l) (by simp)
    refine ⟨max x m, ?_, ?_, ?_⟩
    · rw [listMax, hm]
    · rcases max_choice x m with h | h <;> rw [h]
      · exact List.mem_cons_self _ _
      · exact List.mem_cons_of_mem _ hmem
    · intro z hz
      rcases List.mem_cons.mp hz with h | h
      · rw [h]; exact le_max_left _ _
      · exact (hb z h).trans (le_max_right _ _)

/-- `listMin` of a nonempty list is some member bounding the list from
below. -/
theorem listMin_spec : ∀ {l : List ℚ}, l ≠ [] →
    ∃ m, listMin l = some m ∧ m ∈ l ∧ ∀ x ∈ l, m ≤ x
  | [], h => absurd rfl h
  | [x], _ => ⟨x, rfl, by simp, by simp⟩
  | x :: y :: l, _ => by
    obtain ⟨m, hm, hmem, hb⟩ := listMin_spec (l := y :: l) (by simp)
    refine ⟨min x m, ?_, ?_, ?_⟩
    · rw [listMin, hm]
    · rcases min_choice x m with h | h <;> rw [h]
      · exact List.mem_cons_self _ _
      · exact List.mem_cons_of_mem _ hmem
    · intro z hz
      rcases List.mem_cons.mp hz with h | h
      · rw [h]; exact min_le_left _ _
      · exact (min_le_right x m).trans (hb z h)

/-- The selected current row is a row of the frame. -/
theorem current_temp_row_mem {df : List Sample} {row : Sample}
    (h : current_temp_row df = some row) : row ∈ df := by
  simp only [current_temp_row] at h
  split at h
  · have hmem : row ∈ df.head? := Option.mem_def.mpr h
    rw [List.eq_cons_of_mem_head? hmem]
    exact List.mem_cons_self _ _
  · obtain ⟨hne, heq⟩ := List.mem_getLast?_eq_getLast (Option.mem_def.mpr h)
    have : row ∈ df.filter isHistorical := heq ▸ List.getLast_mem hne
    exact List.mem_of_mem_filter this

/-- With at least one Historical row, line 152 selects the last of the
Historical rows. -/
theorem current_temp_row_of_hist_ne_nil {df : List Sample}
    (h : df.filter isHistorical ≠ []) :
    current_temp_row df = (df.filter isHistorical).getLast? := by
  simp only [current_temp_row]
  rw [if_neg]
  simpa using h

/-- With no Historical row, line 152 falls back to the first row of the
whole frame. -/
theorem current_temp_row_of_hist_nil {df : List Sample}
    (h : df.filter isHistorical = []) :
    current_temp_row df = df.head? := by
  simp [current_temp_row, h]

/-- On a nonempty frame the current row selection always succeeds. -/
theorem current_temp_row_ne_none {df : List Sample} (h : df ≠ []) :
    current_temp_row df ≠ none := by
  by_cases hh : df.filter isHistorical = []
  · rw [current_temp_row_of_hist_nil hh]
    simpa [List.head?_eq_none_iff] using h
  · rw [current_temp_row_of_hist_ne_nil hh]
    simpa [List.getLast?_eq_none_iff] using hh

/-- Inversion for a successful shape: the series is the labeled frame,
the warning flag records whether the timezone resolved, the boundary is
the single `now`, and the metrics come from the selected current row. -/
theorem shape_ok_elim {tzdb : String → Option Tz} {nowAbs : ℤ} {w : WeatherData}
    {s : Shaped} {m : SummaryMetrics} (hok : shape tzdb nowAbs w = .ok s m) :
    ∃ h row, w.hourly = some h ∧
      s.samples = shaped_samples tzdb nowAbs w h ∧
      s.tzWarning = (tzdb (w.timezone.getD "UTC")).isNone ∧
      s.boundary = nowAbs ∧
      current_temp_row s.samples = some row ∧
      m = metricsOf s.samples row := by
  obtain ⟨tzf, hourly⟩ := w
  cases hourly with
  | none => simp [shape] at hok
  | some h =>
    by_cases hlen : h.time.length = h.temperature_2m.length
    · cases hcr : current_temp_row (shaped_samples tzdb nowAbs ⟨tzf, some h⟩ h) with
      | none => simp [shape, hlen, hcr] at hok
      | some row =>
        simp only [shape, hlen, if_true, hcr, ShapeResult.ok.injEq] at hok
        obtain ⟨hs, hm⟩ := hok
        subst hs
        exact ⟨h, row, rfl, rfl, rfl, rfl, hcr, hm.symm⟩
    · simp [shape, hlen] at hok

/-- The shaping block reaches the "not available" branch exactly when
the `hourly` field is missing. -/
theorem shape_shapeError_iff {tzdb : String → Option Tz} {nowAbs : ℤ} {w : WeatherData} :
    shape tzdb nowAbs w = .shapeError ↔ w.hourly = none := by
  obtain ⟨tzf, hourly⟩ := w
  cases hourly with
  | none => simp [shape]
  | some h =>
    by_cases hlen : h.time.length = h.temperature_2m.length
    · cases hcr : current_temp_row (shaped_samples tzdb nowAbs ⟨tzf, some h⟩ h) with
      | none => simp [shape, hlen, hcr]
      | some row => simp [shape, hlen, hcr]
    · simp [shape, hlen]

/-- `current_temp_row` on the empty frame models the `IndexError` of
`df.iloc[0]`. -/
theorem current_temp_row_nil : current_temp_row [] = none := rfl

/-- `mkSamples` on two nonempty columns is nonempty. -/
theorem mkSamples_ne_nil {tz : Tz} {b : ℤ} {ts : List ℤ} {vs : List (Option ℚ)}
    (hts : ts ≠ []) (hvs : vs ≠ []) : mkSamples tz b ts vs ≠ [] := by
  cases ts with
  | nil => exact absurd rfl hts
  | cons t ts =>
    cases vs with
    | nil => exact absurd rfl hvs
    | cons v vs => simp [mkSamples]

/-- With the `hourly` field present, equal-length columns, and a
nonempty frame, the shaping block always succeeds. -/
theorem shape_ok_of_ne_nil {tzdb : String → Option Tz} {nowAbs : ℤ} {w : WeatherData}
    {h : HourlyData} (hh : w.hourly = some h)
    (hlen : h.time.length = h.temperature_2m.length)
    (hdf : shaped_samples tzdb nowAbs w h ≠ []) :
    ∃ s m, shape tzdb nowAbs w = .ok s m := by
  obtain ⟨tzf, hourly⟩ := w
  dsimp only at hh
  subst hh
  cases hcr : current_temp_row (shaped_samples tzdb nowAbs ⟨tzf, some h⟩ h) with
  | none => exact absurd hcr (current_temp_row_ne_none hdf)
  | some row =>
    exact ⟨⟨shaped_samples tzdb nowAbs ⟨tzf, some h⟩ h, (tzdb (tzf.getD "UTC")).isNone, nowAbs⟩,
      metricsOf (shaped_samples tzdb nowAbs ⟨tzf, some h⟩ h) row, by simp [shape, hlen, hcr]⟩

/-- A pairwise relation can be weakened using facts about the members
of the list. -/
theorem pairwise_imp_mem {α : Type} {R S : α → α → Prop} :
    ∀ {l : List α}, (∀ a ∈ l, ∀ b ∈ l, R a b → S a b) → l.Pairwise R → l.Pairwise S
  | [], _, _ => List.Pairwise.nil
  | x :: l, himp, hp => by
    rw [List.pairwise_cons] at hp ⊢
    obtain ⟨hx, hp⟩ := hp
    refine ⟨?_, ?_⟩
    · intro b hb
      exact himp x (List.mem_cons_self _ _) b (List.mem_cons_of_mem _ hb) (hx b hb)
    · exact pairwise_imp_mem
        (fun a ha b hb => himp a (List.mem_cons_of_mem _ ha) b (List.mem_cons_of_mem _ hb)) hp

/-- Looking up a key just appended to a cache that did not contain it
finds the appended value. -/
theorem cache_lookup_append_self {cache : List ((ℚ × ℚ) × Option WeatherData)}
    {c : ℚ × ℚ} {v : Option WeatherData} (h : cache_lookup cache c = none) :
    cache_lookup (cache ++ [(c, v)]) c = some v := by
  induction cache with
  | nil => simp [cache_lookup]
  | cons kv rest ih =>
    obtain ⟨k, u⟩ := kv
    by_cases hk : k = c
    · simp [cache_lookup, hk] at h
    · simp only [cache_lookup, List.cons_append, if_neg hk] at h ⊢
      exact ih h

/-- C1: every sample of a shaped series is labeled Historical exactly
when its localized timestamp is at or before the boundary instant and
Forecast exactly when it is strictly after, so each sample receives
exactly one of the two labels. -/
theorem historical_forecast_labeling (tzdb : String → Option Tz) (nowAbs : ℤ)
    (w : WeatherData) (s : Shaped) (m : SummaryMetrics)
    (hok : shape tzdb nowAbs w = .ok s m) :
    ∀ smp ∈ s.samples,
      (smp.label = Label.Historical ∨ smp.label = Label.Forecast) ∧
      ¬(smp.label = Label.Historical ∧ smp.label = Label.Forecast) ∧
      (smp.label = Label.Historical ↔ smp.time ≤ s.boundary) ∧
      (smp.label = Label.Forecast ↔ s.boundary < smp.time) := by
  obtain ⟨h, row, hh, hsamp, hwarn, hbound, hcr, hm⟩ := shape_ok_elim hok
  intro smp hsmp
  rw [hsamp] at hsmp
  simp only [shaped_samples] at hsmp
  obtain ⟨hhist, hfore⟩ := mkSamples_label hsmp
  rw [hbound]
  refine ⟨?_, ?_, hhist, hfore⟩
  · cases hl : smp.label
    · exact Or.inl rfl
    · exact Or.inr rfl
  · rintro ⟨h1, h2⟩
    rw [h1] at h2
    exact absurd h2 (by simp)

/-- C1 witness: the labeling law evaluated on the concrete Chicago
series split at 10:30. -/
theorem historical_forecast_labeling_witness :
    shape tzdb0 now0 w0 = .ok s0 m0 ∧
    ∀ smp ∈ s0.samples,
      (smp.label = Label.Historical ∨ smp.label = Label.Forecast) ∧
      ¬(smp.label = Label.Historical ∧ smp.label = Label.Forecast) ∧
      (smp.label = Label.Historical ↔ smp.time ≤ s0.boundary) ∧
      (smp.label = Label.Forecast ↔ s0.boundary < smp.time) :=
  ⟨by decide, historical_forecast_labeling tzdb0 now0 w0 s0 m0 (by decide)⟩

/-- C2: the current metric is the last Historical sample's temperature
when a Historical sample exists, else the first sample's temperature
regardless of its label. -/
theorem current_temp_selection (tzdb : String → Option Tz) (nowAbs : ℤ)
    (w : WeatherData) (s : Shaped) (m : SummaryMetrics)
    (hok : shape tzdb nowAbs w = .ok s m) :
    (s.samples.filter isHistorical ≠ [] →
      (s.samples.filter isHistorical).getLast?.map Sample.temperature_2m
        = some m.current_temp) ∧
    (s.samples.filter isHistorical = [] →
      s.samples.head?.map Sample.temperature_2m = some m.current_temp) := by
  obtain ⟨h, row, hh, hsamp, hwarn, hbound, hcr, hm⟩ := shape_ok_elim hok
  subst hm
  constructor
  · intro hne
    rw [current_temp_row_of_hist_ne_nil hne] at hcr
    rw [hcr]
    simp [metricsOf]
  · intro hnil
    rw [current_temp_row_of_hist_nil hnil] at hcr
    rw [hcr]
    simp [metricsOf]

/-- C2 witness: on the concrete Chicago series the current metric is
the 10:00 Historical temperature, 45. -/
theorem current_temp_selection_witness :
    shape tzdb0 now0 w0 = .ok s0 m0 ∧
    (s0.samples.filter isHistorical ≠ [] →
      (s0.samples.filter isHistorical).getLast?.map Sample.temperature_2m
        = some m0.current_temp) ∧
    (s0.samples.filter isHistorical = [] →
      s0.samples.head?.map Sample.temperature_2m = some m0.current_temp) :=
  ⟨by decide, current_temp_selection tzdb0 now0 w0 s0 m0 (by decide)⟩

/-- C3 counterexample: with every temperature entry bad, the max and
min metrics are NaN and the user sees the strings "nan°F", not
"unavailable". -/
theorem max_min_nan_render_counterexample :
    shape tzdb0 30 wNaN = .ok sNaN mNaN ∧
    mNaN.max_temp = none ∧ mNaN.min_temp = none ∧
    render_metric mNaN.max_temp = "nan°F" ∧
    render_metric mNaN.min_temp = "nan°F" ∧
    render_metric mNaN.max_temp ≠ "unavailable" ∧
    render_metric mNaN.min_temp ≠ "unavailable" := by
  refine ⟨by decide, rfl, rfl, rfl, rfl, ?_, ?_⟩ <;> decide

/-- C3 amended: max and min are the extrema of the temperatures over
the entire series with NaN entries skipped; when every entry is NaN
they are themselves NaN — shaping still succeeds and nothing is zero —
but they are rendered as "nan°F", not as "unavailable". -/
theorem max_min_skipna (tzdb : String → Option Tz) (nowAbs : ℤ)
    (w : WeatherData) (s : Shaped) (m : SummaryMetrics)
    (hok : shape tzdb nowAbs w = .ok s m) :
    (validTemps s.samples ≠ [] →
      ∃ hi lo, m.max_temp = some hi ∧ m.min_temp = some lo ∧
        hi ∈ validTemps s.samples ∧ lo ∈ validTemps s.samples ∧
        ∀ t ∈ validTemps s.samples, lo ≤ t ∧ t ≤ hi) ∧
    (validTemps s.samples = [] →
      m.max_temp = none ∧ m.min_temp = none ∧
      render_metric m.max_temp = "nan°F" ∧ render_metric m.min_temp = "nan°F") := by
  obtain ⟨h, row, hh, hsamp, hwarn, hbound, hcr, hm⟩ := shape_ok_elim hok
  subst hm
  constructor
  · intro hne
    obtain ⟨hi, hhi, hhim, hhib⟩ := listMax_spec hne
    obtain ⟨lo, hlo, hlom, hlob⟩ := listMin_spec hne
    exact ⟨hi, lo, by simp [metricsOf, hhi], by simp [metricsOf, hlo], hhim, hlom,
      fun t ht => ⟨hlob t ht, hhib t ht⟩⟩
  · intro hnil
    have hmax : listMax (validTemps s.samples) = none := by rw [hnil]; rfl
    have hmin : listMin (validTemps s.samples) = none := by rw [hnil]; rfl
    refine ⟨by simp [metricsOf, hmax], by simp [metricsOf, hmin], ?_, ?_⟩ <;>
      simp [metricsOf, hmax, hmin, render_metric]

/-- C3 witness: the amended statement evaluated on the all-NaN series. -/
theorem max_min_skipna_witness :
    shape tzdb0 30 wNaN = .ok sNaN mNaN ∧
    ((validTemps sNaN.samples ≠ [] →
      ∃ hi lo, mNaN.max_temp = some hi ∧ mNaN.min_temp = some lo ∧
        hi ∈ validTemps sNaN.samples ∧ lo ∈ validTemps sNaN.samples ∧
        ∀ t ∈ validTemps sNaN.samples, lo ≤ t ∧ t ≤ hi) ∧
     (validTemps sNaN.samples = [] →
      mNaN.max_temp = none ∧ mNaN.min_temp = none ∧
      render_metric mNaN.max_temp = "nan°F" ∧ render_metric mNaN.min_temp = "nan°F")) :=
  ⟨by decide, max_min_skipna tzdb0 30 wNaN sNaN mNaN (by decide)⟩

/-- C4 counterexample: the first fetch on a failing network shows the
error message and returns no data, but the None result lands in the
cache: the second fetch of the same coordinates is served from the
cache, performs no fresh network call, and even shows no message. -/
theorem failed_fetch_cached_counterexample :
    (get_weather_data failNet nyLat nyLon st_empty).error_message
        = some "Error fetching data: timeout" ∧
    (get_weather_data failNet nyLat nyLon st_empty).result = none ∧
    (get_weather_data failNet nyLat nyLon st_empty).state.network_calls = 1 ∧
    cache_lookup (get_weather_data failNet nyLat nyLon st_empty).state.cache (nyLat, nyLon)
        = some none ∧
    (get_weather_data failNet nyLat nyLon
        (get_weather_data failNet nyLat nyLon st_empty).state).state.network_calls = 1 ∧
    (get_weather_data failNet nyLat nyLon
        (get_weather_data failNet nyLat nyLon st_empty).state).error_message = none := by
  exact ⟨rfl, rfl, rfl, rfl, rfl, rfl⟩

/-- C4 amended: on a network failure the fetcher shows a user-visible
error message and returns None instead of crashing, but the failed
(None) result is stored in the memoization cache, so a later fetch of
the same coordinates is served from the cache and performs no fresh
network call. -/
theorem failed_fetch_error_and_cached (network : ℚ × ℚ → NetResult)
    (lat lon : ℚ) (st : FetchState) (cause : String)
    (hmiss : cache_lookup st.cache (lat, lon) = none)
    (hfail : network (lat, lon) = .failure cause) :
    get_weather_data network lat lon st
      = ⟨none, ⟨st.cache ++ [((lat, lon), none)], st.network_calls + 1⟩,
         some ("Error fetching data: " ++ cause)⟩ ∧
    get_weather_data network lat lon
        ⟨st.cache ++ [((lat, lon), none)], st.network_calls + 1⟩
      = ⟨none, ⟨st.cache ++ [((lat, lon), none)], st.network_calls + 1⟩, none⟩ := by
  constructor
  · unfold get_weather_data
    rw [hmiss, hfail]
  · unfold get_weather_data
    rw [cache_lookup_append_self hmiss]

/-- C4 witness: the amended statement evaluated on a network that
times out at the New York coordinates. -/
theorem failed_fetch_error_and_cached_witness :
    cache_lookup st_empty.cache (nyLat, nyLon) = none ∧
    failNet (nyLat, nyLon) = .failure "timeout" ∧
    (get_weather_data failNet nyLat nyLon st_empty
      = ⟨none, ⟨st_empty.cache ++ [((nyLat, nyLon), none)], st_empty.network_calls + 1⟩,
         some ("Error fetching data: " ++ "timeout")⟩ ∧
     get_weather_data failNet nyLat nyLon
        ⟨st_empty.cache ++ [((nyLat, nyLon), none)], st_empty.network_calls + 1⟩
      = ⟨none, ⟨st_empty.cache ++ [((nyLat, nyLon), none)], st_empty.network_calls + 1⟩, none⟩) :=
  ⟨rfl, rfl, failed_fetch_error_and_cached failNet nyLat nyLon st_empty "timeout" rfl rfl⟩

/-- C5: the shaper reaches the "data unavailable" branch exactly when
the required `hourly` field is missing, and a response with the field
present, parallel arrays of equal length, and at least one sample
always shapes successfully regardless of bad temperature entries — bad
samples are never fatal. -/
theorem shape_error_iff_missing_hourly (tzdb : String → Option Tz) (nowAbs : ℤ)
    (w : WeatherData) :
    (shape tzdb nowAbs w = .shapeError ↔ w.hourly = none) ∧
    (∀ h, w.hourly = some h → h.time.length = h.temperature_2m.length →
      h.time ≠ [] → ∃ s m, shape tzdb nowAbs w = .ok s m) := by
  refine ⟨shape_shapeError_iff, ?_⟩
  intro h hh hlen htne
  have hvne : h.temperature_2m ≠ [] := by
    intro hnil
    apply htne
    rw [hnil] at hlen
    exact List.length_eq_zero.mp (by simpa using hlen)
  refine shape_ok_of_ne_nil hh hlen ?_
  simp only [shaped_samples]
  refine mkSamples_ne_nil htne ?_
  simpa using hvne

/-- C5 witness: the missing-field response errs, while the response
whose entries include only well-formed samples shapes fine; see the
all-NaN witness of C3 for bad samples being non-fatal. -/
theorem shape_error_iff_missing_hourly_witness :
    shape tzdb0 now0 wNoHourly = .shapeError ∧
    ∃ s m, shape tzdb0 now0 w0 = .ok s m :=
  ⟨(shape_error_iff_missing_hourly tzdb0 now0 wNoHourly).1.mpr rfl,
   (shape_error_iff_missing_hourly tzdb0 now0 w0).2 h0 rfl (by decide) (by decide)⟩

/-- A shape call on parallel arrays of unequal nonempty lengths models
the uncaught `ValueError` of `pd.DataFrame` on line 137: a crash, not a
successful series and not the guarded "not available" branch. -/
theorem shape_length_mismatch_crash (tzdb : String → Option Tz) (nowAbs : ℤ)
    (w : WeatherData) (h : HourlyData) (hh : w.hourly = some h)
    (hlen : h.time.length ≠ h.temperature_2m.length) :
    shape tzdb nowAbs w = .crash := by
  obtain ⟨tzf, hourly⟩ := w
  dsimp only at hh
  subst hh
  simp [shape, hlen]

/-- C6: all samples are compared against the single boundary of the
shape call, so with ascending input timestamps the labels are
monotonic: no Forecast-labeled sample precedes a Historical one. -/
theorem labels_monotonic_sorted (tzdb : String → Option Tz) (nowAbs : ℤ)
    (w : WeatherData) (h : HourlyData) (s : Shaped) (m : SummaryMetrics)
    (hok : shape tzdb nowAbs w = .ok s m) (hh : w.hourly = some h)
    (hsorted : h.time.Pairwise (· ≤ ·)) :
    s.samples.Pairwise (fun a c => a.label = Label.Forecast → c.label = Label.Forecast) := by
  obtain ⟨h', row, hh', hsamp, hwarn, hbound, hcr, hm⟩ := shape_ok_elim hok
  rw [hh] at hh'
  injection hh' with he
  subst he
  rw [hsamp]
  simp only [shaped_samples]
  have hpw := @mkSamples_pairwise_time ((tzdb (w.timezone.getD "UTC")).getD UTC) nowAbs
      h.time (h.temperature_2m.map to_numeric_coerce) hsorted
  refine pairwise_imp_mem ?_ hpw
  intro a ha c hc hle hfa
  obtain ⟨-, hfc⟩ := mkSamples_label hc
  obtain ⟨-, hfa_iff⟩ := mkSamples_label ha
  rw [hfc]
  rw [hfa_iff] at hfa
  omega

/-- C6 witness: label monotonicity on the concrete Chicago series. -/
theorem labels_monotonic_sorted_witness :
    shape tzdb0 now0 w0 = .ok s0 m0 ∧ w0.hourly = some h0 ∧
    h0.time.Pairwise (· ≤ ·) ∧
    s0.samples.Pairwise (fun a c => a.label = Label.Forecast → c.label = Label.Forecast) :=
  ⟨by decide, rfl, by decide,
   labels_monotonic_sorted tzdb0 now0 w0 h0 s0 m0 (by decide) rfl (by decide)⟩

/-- C7 counterexample: a series whose only Historical sample has a NaN
temperature gives current = NaN while min = max = 50, so min ≤ current
≤ max fails even though a Historical sample exists. -/
theorem current_in_range_counterexample :
    shape tzdb0 30 w7 = .ok s7 m7 ∧
    s7.samples.filter isHistorical ≠ [] ∧
    m7.current_temp = none ∧ m7.min_temp = some 50 ∧ m7.max_temp = some 50 ∧
    ¬(∃ c lo hi, m7.current_temp = some c ∧ m7.min_temp = some lo ∧
        m7.max_temp = some hi ∧ lo ≤ c ∧ c ≤ hi) := by
  refine ⟨by decide, by decide, rfl, rfl, rfl, ?_⟩
  rintro ⟨c, lo, hi, hc, -⟩
  simp [m7] at hc

/-- C7 amended: whenever a Historical sample exists and the current
temperature is a number (the last Historical sample's temperature is
not NaN), min ≤ current ≤ max; when no Historical sample exists the
current metric is the first sample's temperature. -/
theorem current_in_range_amended (tzdb : String → Option Tz) (nowAbs : ℤ)
    (w : WeatherData) (s : Shaped) (m : SummaryMetrics)
    (hok : shape tzdb nowAbs w = .ok s m) :
    (s.samples.filter isHistorical ≠ [] → ∀ c, m.current_temp = some c →
      ∃ lo hi, m.min_temp = some lo ∧ m.max_temp = some hi ∧ lo ≤ c ∧ c ≤ hi) ∧
    (s.samples.filter isHistorical = [] →
      s.samples.head?.map Sample.temperature_2m = some m.current_temp) := by
  obtain ⟨h, row, hh, hsamp, hwarn, hbound, hcr, hm⟩ := shape_ok_elim hok
  have hrow_mem : row ∈ s.samples := current_temp_row_mem hcr
  subst hm
  constructor
  · intro hne c hc
    simp only [metricsOf] at hc
    have hcv : c ∈ validTemps s.samples := by
      simp only [validTemps, List.mem_filterMap]
      exact ⟨row, hrow_mem, hc⟩
    have hvne : validTemps s.samples ≠ [] := List.ne_nil_of_mem hcv
    obtain ⟨hi, hhi, hhim, hhib⟩ := listMax_spec hvne
    obtain ⟨lo, hlo, hlom, hlob⟩ := listMin_spec hvne
    exact ⟨lo, hi, by simp [metricsOf, hlo], by simp [metricsOf, hhi], hlob c hcv, hhib c hcv⟩
  · intro hnil
    rw [current_temp_row_of_hist_nil hnil] at hcr
    rw [hcr]
    simp [metricsOf]

/-- C7 witness: the amended bound evaluated on the Chicago series,
whose current temperature 45 lies between min 42 and max 48. -/
theorem current_in_range_amended_witness :
    shape tzdb0 now0 w0 = .ok s0 m0 ∧ s0.samples.filter isHistorical ≠ [] ∧
    m0.current_temp = some 45 ∧
    (∃ lo hi, m0.min_temp = some lo ∧ m0.max_temp = some hi ∧ lo ≤ 45 ∧ 45 ≤ hi) :=
  ⟨by decide, by decide, rfl,
   (current_in_range_amended tzdb0 now0 w0 s0 m0 (by decide)).1 (by decide) 45 rfl⟩

/-- C8: fetching coordinates not yet cached performs one network call
and caches the returned value; fetching the same pair again returns the
cached value with the state unchanged, so no second network call
happens. -/
theorem fetch_twice_one_network_call (network : ℚ × ℚ → NetResult)
    (lat lon : ℚ) (st : FetchState)
    (hmiss : cache_lookup st.cache (lat, lon) = none) :
    ∃ r msg,
      get_weather_data network lat lon st
        = ⟨r, ⟨st.cache ++ [((lat, lon), r)], st.network_calls + 1⟩, msg⟩ ∧
      get_weather_data network lat lon ⟨st.cache ++ [((lat, lon), r)], st.network_calls + 1⟩
        = ⟨r, ⟨st.cache ++ [((lat, lon), r)], st.network_calls + 1⟩, none⟩ := by
  cases hnet : network (lat, lon) with
  | success data =>
    refine ⟨some data, none, ?_, ?_⟩
    · unfold get_weather_data
      rw [hmiss, hnet]
    · unfold get_weather_data
      rw [cache_lookup_append_self hmiss]
  | failure cause =>
    refine ⟨none, some ("Error fetching data: " ++ cause), ?_, ?_⟩
    · unfold get_weather_data
      rw [hmiss, hnet]
    · unfold get_weather_data
      rw [cache_lookup_append_self hmiss]

/-- C8 witness: two fetches of the New York coordinates on a healthy
network, starting from the empty cache. -/
theorem fetch_twice_one_network_call_witness :
    cache_lookup st_empty.cache (nyLat, nyLon) = none ∧
    ∃ r msg,
      get_weather_data okNet nyLat nyLon st_empty
        = ⟨r, ⟨st_empty.cache ++ [((nyLat, nyLon), r)], st_empty.network_calls + 1⟩, msg⟩ ∧
      get_weather_data okNet nyLat nyLon
          ⟨st_empty.cache ++ [((nyLat, nyLon), r)], st_empty.network_calls + 1⟩
        = ⟨r, ⟨st_empty.cache ++ [((nyLat, nyLon), r)], st_empty.network_calls + 1⟩, none⟩ :=
  ⟨rfl, fetch_twice_one_network_call okNet nyLat nyLon st_empty rfl⟩

/-- C9: when the reported timezone identifier fails to resolve on a
response with well-formed parallel arrays, shaping does not fail: the
warning is surfaced, timestamps are localized in UTC, and the series
and metrics are still produced against the same boundary. -/
theorem timezone_fallback_utc_warning (tzdb : String → Option Tz) (nowAbs : ℤ)
    (w : WeatherData) (h : HourlyData) (hh : w.hourly = some h)
    (htz : tzdb (w.timezone.getD "UTC") = none)
    (hlen : h.time.length = h.temperature_2m.length)
    (htne : h.time ≠ []) :
    ∃ s m, shape tzdb nowAbs w = .ok s m ∧ s.tzWarning = true ∧
      s.samples = mkSamples UTC nowAbs h.time (h.temperature_2m.map to_numeric_coerce) ∧
      s.boundary = nowAbs := by
  have hvne : h.temperature_2m ≠ [] := by
    intro hnil
    apply htne
    rw [hnil] at hlen
    exact List.length_eq_zero.mp (by simpa using hlen)
  obtain ⟨s, m, hok⟩ := @shape_ok_of_ne_nil tzdb nowAbs w h hh hlen (by
    simp only [shaped_samples]
    exact mkSamples_ne_nil htne (by simpa using hvne))
  obtain ⟨h', row, hh', hsamp, hwarn, hbound, hcr, hm⟩ := shape_ok_elim hok
  rw [hh] at hh'
  injection hh' with he
  subst he
  refine ⟨s, m, hok, ?_, ?_, hbound⟩
  · rw [hwarn, htz]
    rfl
  · rw [hsamp]
    simp only [shaped_samples]
    rw [htz]
    rfl

/-- C9 witness: the fallback evaluated on the Chicago payload with a
timezone database that resolves nothing. -/
theorem timezone_fallback_utc_warning_witness :
    w0.hourly = some h0 ∧ tzdbNone (w0.timezone.getD "UTC") = none ∧
    (∃ s m, shape tzdbNone now0 w0 = .ok s m ∧ s.tzWarning = true ∧
      s.samples = mkSamples UTC now0 h0.time (h0.temperature_2m.map to_numeric_coerce) ∧
      s.boundary = now0) :=
  ⟨rfl, rfl,
   timezone_fallback_utc_warning tzdbNone now0 w0 h0 rfl rfl (by decide) (by decide)⟩

/-- C10: a structurally well-formed response with empty hourly arrays
makes the no-Historical fallback index an empty frame, so shaping
crashes instead of producing metrics. -/
theorem empty_series_crash (tzdb : String → Option Tz) (nowAbs : ℤ)
    (w : WeatherData) (h : HourlyData) (hh : w.hourly = some h)
    (hempty : h.time = [] ∨ h.temperature_2m = []) :
    shape tzdb nowAbs w = .crash := by
  obtain ⟨tzf, hourly⟩ := w
  dsimp only at hh
  subst hh
  have hdf : shaped_samples tzdb nowAbs ⟨tzf, some h⟩ h = [] := by
    rcases hempty with he | he
    · simp [shaped_samples, he, mkSamples_nil_left]
    · simp [shaped_samples, he, mkSamples_nil_right]
  by_cases hlen : h.time.length = h.temperature_2m.length
  · simp [shape, hlen, hdf, current_temp_row_nil]
  · simp [shape, hlen]

/-- C10 witness: the empty-arrays response crashes the shaper. -/
theorem empty_series_crash_witness :
    wEmpty.hourly = some ⟨[], []⟩ ∧ shape tzdb0 99 wEmpty = .crash :=
  ⟨rfl, empty_series_crash tzdb0 99 wEmpty ⟨[], []⟩ rfl (Or.inl rfl)⟩

end Weather
